import Mathlib

/-!
Verification of the linear-api adapter (a Linear GraphQL client plus an MCP
server layer).  The definitions below are a shallow embedding of
`linear_client.py` and `server.py`: request construction (query text and
variables), the transport layer's handling of a parsed 2xx response body,
and the response-reshaping of the six list/get operations.  Machine-level
concerns (HTTP, JSON parsing) are abstracted to the structures the code
actually inspects; Python numbers become rationals, Python `None`/absent keys
become `Option`, and raised exceptions become `Except`/error-shaped results.
-/

namespace LinearApi

/-- Python truthiness of an `Optional[str]` value: `None` and the empty string
are falsy, every other string is truthy.  Used for `if filter_query:` style
tests in the source. -/
def pyTruthy : Option String → Bool
  | none => false
  | some s => !(s == "")

/-! ## Transport layer: `LinearClient.query`, post-parse behaviour

`query` (linear_client.py lines 58-62): after a 2xx response,
`data = response.json()`; if `"errors" in data` it raises an exception whose
message is `"GraphQL errors:\n"` followed by one `- <message>` line per
error (`err.get('message', str(err))`); otherwise it returns
`data.get("data", {})`. -/

/-- A JSON value, as far as the transport layer inspects it. -/
inductive JsonVal where
  | null
  | str (s : String)
  | num (q : ℚ)
  | boolean (b : Bool)
  | arr (elems : List JsonVal)
  | obj (fields : List (String × JsonVal))

/-- One element of the top-level `errors` array: its `message` field when
present, and `text`, the `str(err)` rendering used as the fallback. -/
structure GqlErr where
  message : Option String
  text : String
deriving DecidableEq

/-- The parsed 2xx response body, as far as `query` inspects it:
`errors` is `some` exactly when the key `"errors"` is present in the parsed
object (`"errors" in data`), and `data` is `some` exactly when the key
`"data"` is present. -/
structure GraphQLResponse where
  errors : Option (List GqlErr)
  data : Option JsonVal

/-- The per-error lines of the GraphQL error message:
`f"- {err.get('message', str(err))}"` for each error. -/
def gqlErrorLines (errs : List GqlErr) : List String :=
  errs.map (fun e => "- " ++ e.message.getD e.text)

/-- `f"GraphQL errors:\n{error_details}"` where `error_details` joins the
per-error lines with newlines. -/
def gqlErrorMessage (errs : List GqlErr) : String :=
  "GraphQL errors:\n" ++ String.intercalate "\n" (gqlErrorLines errs)

/-- `LinearClient.query`, from the point where the 2xx body has been parsed:
raise (`Except.error`) when the `errors` key is present, else return
`data.get("data", {})`. -/
def queryResult (r : GraphQLResponse) : Except String JsonVal :=
  match r.errors with
  | some errs => .error (gqlErrorMessage errs)
  | none => .ok (r.data.getD (.obj []))

/-- `true` on `Except.ok`, i.e. the call did not raise. -/
def exceptOk {α : Type} : Except String α → Bool
  | .ok _ => true
  | .error _ => false

/-! ## Request construction: the fixed query documents

The GraphQL documents are string constants in `linear_client.py`; they are
reproduced here with braces written as escapes. -/

/-- The `GetInitiatives` query document (`get_initiatives`).  Note it declares
no filter variable at all. -/
def getInitiativesQuery : String :=
"query GetInitiatives($first: Int, $after: String, $before: String) \x7b
    initiatives(first: $first, after: $after, before: $before) \x7b
        nodes \x7b
            id
            name
            description
            status
            owner \x7b
                id
                name
                email
            \x7d
            targetDate
            startedAt
            completedAt
            archivedAt
            createdAt
            updatedAt
            icon
            color
        \x7d
        pageInfo \x7b
            hasNextPage
            hasPreviousPage
            endCursor
            startCursor
        \x7d
    \x7d
\x7d"

/-- The `GetProjects` query document (`get_projects`). -/
def getProjectsQuery : String :=
"query GetProjects($first: Int, $after: String, $before: String, $filter: ProjectFilter) \x7b
    projects(first: $first, after: $after, before: $before, filter: $filter) \x7b
        nodes \x7b
            id
            name
            description
            state
            progress
            startedAt
            startDate
            targetDate
            completedAt
            canceledAt
            archivedAt
            createdAt
            updatedAt
            icon
            color
            slugId
            lead \x7b
                id
                name
                email
            \x7d
            teams(first: 10) \x7b
                nodes \x7b
                    id
                    name
                    key
                \x7d
            \x7d
            initiatives(first: 10) \x7b
                nodes \x7b
                    id
                    name
                \x7d
            \x7d
        \x7d
        pageInfo \x7b
            hasNextPage
            hasPreviousPage
            endCursor
            startCursor
        \x7d
    \x7d
\x7d"

/-- The `GetDocuments` query document (`get_documents`). -/
def getDocumentsQuery : String :=
"query GetDocuments($first: Int, $after: String, $before: String, $filter: DocumentFilter) \x7b
    documents(first: $first, after: $after, before: $before, filter: $filter) \x7b
        nodes \x7b
            id
            title
            content
            icon
            color
            archivedAt
            createdAt
            updatedAt
            creator \x7b
                id
                name
                email
            \x7d
            project \x7b
                id
                name
            \x7d
            initiative \x7b
                id
                name
            \x7d
        \x7d
        pageInfo \x7b
            hasNextPage
            hasPreviousPage
            endCursor
            startCursor
        \x7d
    \x7d
\x7d"

/-- The `GetProject` query document (`get_project`).  It requests the
project's `issues` (id, title, identifier, state, priority) but neither an
issue-level `projectMilestone` field nor a project-level `projectMilestones`
collection. -/
def getProjectQuery : String :=
"query GetProject($id: String!) \x7b
    project(id: $id) \x7b
        id
        name
        description
        content
        state
        progress
        startedAt
        startDate
        targetDate
        completedAt
        canceledAt
        archivedAt
        createdAt
        updatedAt
        icon
        color
        slugId
        lead \x7b
            id
            name
            email
        \x7d
        teams(first: 50) \x7b
            nodes \x7b
                id
                name
                key
            \x7d
        \x7d
        issues(first: 50) \x7b
            nodes \x7b
                id
                title
                identifier
                state \x7b
                    name
                    type
                \x7d
                priority
            \x7d
        \x7d
        documents(first: 50) \x7b
            nodes \x7b
                id
                title
                content
                createdAt
                updatedAt
            \x7d
        \x7d
        initiatives(first: 50) \x7b
            nodes \x7b
                id
                name
            \x7d
        \x7d
    \x7d
\x7d"

/-! ## Request construction: variables and filters -/

/-- A value of the filter object sent as the `$filter` variable:
`contains` is `\x7b"contains": s\x7d`, `someIdEq` is
`\x7b"some": \x7b"id": \x7b"eq": s\x7d\x7d\x7d`, and `idEq` is
`\x7b"id": \x7b"eq": s\x7d\x7d`. -/
inductive FilterVal where
  | contains (s : String)
  | someIdEq (s : String)
  | idEq (s : String)
deriving DecidableEq

/-- The variables dictionary built by the three list methods: page size
(`first`), the two cursors, and the optional filter object (`filter = none`
models the absence of the `"filter"` key). -/
structure Variables where
  first : Int
  after : Option String
  before : Option String
  filter : Option (List (String × FilterVal))
deriving DecidableEq

/-- The payload handed to the transport layer: the fixed query document and
the assembled variables. -/
structure GraphQLRequest where
  query : String
  vars : Variables
deriving DecidableEq

namespace LinearClient

/-- `LinearClient.get_initiatives`: builds only `first`/`after`/`before`; the
`filter_query` and `include_archived` parameters are accepted but unused (the
source comment notes `include_archived` is kept for compatibility and does not
affect the query; `filter_query` is never read either). -/
def get_initiatives (limit : Int) (filter_query : Option String)
    (include_archived : Bool) (after before : Option String) : GraphQLRequest :=
  ⟨getInitiativesQuery, ⟨limit, after, before, none⟩⟩

/-- The filter object built by `LinearClient.get_projects`: a `"name"`
contains-filter when `filter_query` is truthy, a `"teams"` some-id-eq filter
when `team_id` is truthy, an `"initiatives"` some-id-eq filter when
`initiative_id` is truthy, in insertion order. -/
def get_projects_filter (filter_query team_id initiative_id : Option String) :
    List (String × FilterVal) :=
  (if pyTruthy filter_query then [("name", FilterVal.contains (filter_query.getD ""))] else []) ++
  (if pyTruthy team_id then [("teams", FilterVal.someIdEq (team_id.getD ""))] else []) ++
  (if pyTruthy initiative_id then [("initiatives", FilterVal.someIdEq (initiative_id.getD ""))] else [])

/-- `LinearClient.get_projects`: builds `first`/`after`/`before` and attaches
the filter object only when it is non-empty (`if filter_obj:`).  The
`include_archived` parameter is accepted but never read. -/
def get_projects (limit : Int) (filter_query : Option String) (include_archived : Bool)
    (team_id initiative_id after before : Option String) : GraphQLRequest :=
  let filterObj := get_projects_filter filter_query team_id initiative_id
  ⟨getProjectsQuery, ⟨limit, after, before, if filterObj.isEmpty then none else some filterObj⟩⟩

/-- The filter object built by `LinearClient.get_documents`: a `"title"`
contains-filter when `filter_query` is truthy, a `"project"` id-eq filter when
`project_id` is truthy, an `"initiative"` id-eq filter when `initiative_id` is
truthy, in insertion order. -/
def get_documents_filter (filter_query project_id initiative_id : Option String) :
    List (String × FilterVal) :=
  (if pyTruthy filter_query then [("title", FilterVal.contains (filter_query.getD ""))] else []) ++
  (if pyTruthy project_id then [("project", FilterVal.idEq (project_id.getD ""))] else []) ++
  (if pyTruthy initiative_id then [("initiative", FilterVal.idEq (initiative_id.getD ""))] else [])

/-- `LinearClient.get_documents`: builds `first`/`after`/`before` and attaches
the filter object only when it is non-empty.  The `include_archived` parameter
is accepted but never read. -/
def get_documents (limit : Int) (filter_query : Option String) (include_archived : Bool)
    (project_id initiative_id after before : Option String) : GraphQLRequest :=
  let filterObj := get_documents_filter filter_query project_id initiative_id
  ⟨getDocumentsQuery, ⟨limit, after, before, if filterObj.isEmpty then none else some filterObj⟩⟩

end LinearClient

/-! ## Server layer: the requests the list operations send

`_list_initiatives` / `_list_projects` / `_list_documents` (server.py) call
the client with `limit=min(limit, 250)` and pass `search` through as
`filter_query`. -/

/-- The request `_list_initiatives` sends upstream. -/
def list_initiatives_request (limit : Int) (search : Option String) (include_archived : Bool)
    (cursor_after cursor_before : Option String) : GraphQLRequest :=
  LinearClient.get_initiatives (min limit 250) search include_archived cursor_after cursor_before

/-- The request `_list_projects` sends upstream. -/
def list_projects_request (limit : Int) (search : Option String) (include_archived : Bool)
    (team_id initiative_id cursor_after cursor_before : Option String) : GraphQLRequest :=
  LinearClient.get_projects (min limit 250) search include_archived team_id initiative_id
    cursor_after cursor_before

/-- The request `_list_documents` sends upstream. -/
def list_documents_request (limit : Int) (search : Option String) (include_archived : Bool)
    (project_id initiative_id cursor_after cursor_before : Option String) : GraphQLRequest :=
  LinearClient.get_documents (min limit 250) search include_archived project_id initiative_id
    cursor_after cursor_before

/-! ## Remote response shapes

Each structure mirrors exactly the keys the server code reads.  A field the
code reads with `[...]` (raising `KeyError` when absent) is a required field;
a field read with `.get(...)` is an `Option`. -/

/-- A person reference (`owner`, `lead`, `creator`): the code reads `name`
and `email` with `.get`. -/
structure RemoteOwner where
  name : Option String
  email : Option String
deriving DecidableEq

/-- A connection wrapper: the code reads `.get("nodes", [])`. -/
structure Conn (α : Type) where
  nodes : List α
deriving DecidableEq

/-- `x.get("teams", \x7b\x7d).get("nodes", [])`: the node list of an optional
connection, empty when the connection key is absent. -/
def connNodes {α : Type} : Option (Conn α) → List α
  | none => []
  | some c => c.nodes

/-- The `pageInfo` object; every field is read with a `.get` default. -/
structure RemotePageInfo where
  hasNextPage : Option Bool
  hasPreviousPage : Option Bool
  endCursor : Option String
  startCursor : Option String
deriving DecidableEq

/-- A list-query connection: `nodes` plus an optional `pageInfo`. -/
structure ListConn (α : Type) where
  nodes : List α
  pageInfo : Option RemotePageInfo
deriving DecidableEq

/-- An initiative node of the `GetInitiatives` response (`id` and `name`
are read with `[...]`, everything else with `.get`). -/
structure RemoteInitiative where
  id : String
  name : String
  description : Option String
  status : Option String
  owner : Option RemoteOwner
  targetDate : Option String
  startedAt : Option String
  completedAt : Option String
  archivedAt : Option String
  createdAt : Option String
  updatedAt : Option String
  color : Option String
  icon : Option String
deriving DecidableEq

/-- A team node (`id`, `name`, `key` all read with `[...]` where used). -/
structure RemoteTeam where
  id : String
  name : String
  key : String
deriving DecidableEq

/-- An initiative reference nested under a project (`id`, `name`). -/
structure RemoteInitRef where
  id : String
  name : String
deriving DecidableEq

/-- A project node of the `GetProjects` response. -/
structure RemoteProjectNode where
  id : String
  name : String
  description : Option String
  state : Option String
  progress : Option ℚ
  lead : Option RemoteOwner
  teams : Option (Conn RemoteTeam)
  initiatives : Option (Conn RemoteInitRef)
  targetDate : Option String
  completedAt : Option String
  archivedAt : Option String
  color : Option String
  icon : Option String
deriving DecidableEq

/-- A project/initiative reference nested under a document (read only via
`.get`, so both fields are optional). -/
structure RemoteRef where
  id : Option String
  name : Option String
deriving DecidableEq

/-- A document node of the `GetDocuments` response. -/
structure RemoteDocumentNode where
  id : String
  title : String
  content : Option String
  creator : Option RemoteOwner
  project : Option RemoteRef
  initiative : Option RemoteRef
  archivedAt : Option String
  createdAt : Option String
  updatedAt : Option String
  color : Option String
  icon : Option String
deriving DecidableEq

/-- The `data` mapping of a `GetInitiatives` response: the `initiatives`
key may be absent (`result.get("initiatives", \x7b\x7d)`). -/
structure InitiativesData where
  initiatives : Option (ListConn RemoteInitiative)
deriving DecidableEq

/-- The `data` mapping of a `GetProjects` response. -/
structure ProjectsData where
  projects : Option (ListConn RemoteProjectNode)
deriving DecidableEq

/-- The `data` mapping of a `GetDocuments` response. -/
structure DocumentsData where
  documents : Option (ListConn RemoteDocumentNode)
deriving DecidableEq

/-! ## Server layer: list-response reshaping -/

/-- The formatted pagination block: `hasNextPage`/`hasPreviousPage` default
to `false`, the cursors to `None`. -/
structure Pagination where
  has_next_page : Bool
  has_previous_page : Bool
  end_cursor : Option String
  start_cursor : Option String
deriving DecidableEq

/-- Builds the `pagination` block from `xs.get("pageInfo", \x7b\x7d)`. -/
def formatPagination (pi : Option RemotePageInfo) : Pagination :=
  match pi with
  | none => ⟨false, false, none, none⟩
  | some p => ⟨p.hasNextPage.getD false, p.hasPreviousPage.getD false, p.endCursor, p.startCursor⟩

/-- A formatted initiative entry of the `list_initiatives` output. -/
structure FormattedInitiative where
  id : String
  name : String
  description : Option String
  status : Option String
  owner : Option String
  project_count : Option Nat
  target_date : Option String
  started_at : Option String
  completed_at : Option String
  archived_at : Option String
  created_at : Option String
  updated_at : Option String
  color : Option String
  icon : Option String
deriving DecidableEq

/-- One entry of `formatted_initiatives` in `_list_initiatives`
(`project_count` is always `None` in the list view). -/
def formatInitiative (i : RemoteInitiative) : FormattedInitiative :=
  { id := i.id
    name := i.name
    description := i.description
    status := i.status
    owner := match i.owner with | some o => o.name | none => none
    project_count := none
    target_date := i.targetDate
    started_at := i.startedAt
    completed_at := i.completedAt
    archived_at := i.archivedAt
    created_at := i.createdAt
    updated_at := i.updatedAt
    color := i.color
    icon := i.icon }

/-- A formatted project entry of the `list_projects` output (teams and
initiatives are projected down to name arrays). -/
structure FormattedProject where
  id : String
  name : String
  description : Option String
  state : Option String
  progress : Option ℚ
  lead : Option String
  teams : List String
  initiatives : List String
  target_date : Option String
  completed_at : Option String
  archived_at : Option String
  color : Option String
  icon : Option String
deriving DecidableEq

/-- One entry of `formatted_projects` in `_list_projects`. -/
def formatProject (p : RemoteProjectNode) : FormattedProject :=
  { id := p.id
    name := p.name
    description := p.description
    state := p.state
    progress := p.progress
    lead := match p.lead with | some o => o.name | none => none
    teams := (connNodes p.teams).map RemoteTeam.name
    initiatives := (connNodes p.initiatives).map RemoteInitRef.name
    target_date := p.targetDate
    completed_at := p.completedAt
    archived_at := p.archivedAt
    color := p.color
    icon := p.icon }

/-- A formatted document entry of the `list_documents` output. -/
structure FormattedDocument where
  id : String
  title : String
  creator : Option String
  project : Option String
  initiative : Option String
  archived_at : Option String
  created_at : Option String
  updated_at : Option String
  color : Option String
  icon : Option String
deriving DecidableEq

/-- One entry of `formatted_documents` in `_list_documents`. -/
def formatDocument (d : RemoteDocumentNode) : FormattedDocument :=
  { id := d.id
    title := d.title
    creator := match d.creator with | some o => o.name | none => none
    project := match d.project with | some r => r.name | none => none
    initiative := match d.initiative with | some r => r.name | none => none
    archived_at := d.archivedAt
    created_at := d.createdAt
    updated_at := d.updatedAt
    color := d.color
    icon := d.icon }

/-- The result a list operation returns on success: the item array, the
`total_count` field, and the pagination block. -/
structure ListResult (α : Type) where
  items : List α
  total_count : Nat
  pagination : Pagination
deriving DecidableEq

/-- The outcome of a server operation: either the data-shaped
`\x7b"error": msg\x7d` mapping or a success value.  Lean functions into this
type are total, which models the blanket `try/except` wrapper: no exception
crosses the tool boundary. -/
inductive ServerResult (α : Type) where
  | error (msg : String)
  | ok (val : α)
deriving DecidableEq

/-- The success path of `_list_initiatives` after the transport returned
`result`: reshape nodes, set `total_count` to the length of the reshaped
array, build the pagination block. -/
def list_initiatives_result (d : InitiativesData) : ListResult FormattedInitiative :=
  let conn := d.initiatives.getD ⟨[], none⟩
  let formatted := conn.nodes.map formatInitiative
  ⟨formatted, formatted.length, formatPagination conn.pageInfo⟩

/-- `_list_initiatives`, given the transport outcome: any raised failure is
caught and returned as `\x7b"error": str(e)\x7d`. -/
def list_initiatives_op (transport : Except String InitiativesData) :
    ServerResult (ListResult FormattedInitiative) :=
  match transport with
  | .error e => .error e
  | .ok d => .ok (list_initiatives_result d)

/-- The success path of `_list_projects`. -/
def list_projects_result (d : ProjectsData) : ListResult FormattedProject :=
  let conn := d.projects.getD ⟨[], none⟩
  let formatted := conn.nodes.map formatProject
  ⟨formatted, formatted.length, formatPagination conn.pageInfo⟩

/-- `_list_projects`, given the transport outcome. -/
def list_projects_op (transport : Except String ProjectsData) :
    ServerResult (ListResult FormattedProject) :=
  match transport with
  | .error e => .error e
  | .ok d => .ok (list_projects_result d)

/-- The success path of `_list_documents`. -/
def list_documents_result (d : DocumentsData) : ListResult FormattedDocument :=
  let conn := d.documents.getD ⟨[], none⟩
  let formatted := conn.nodes.map formatDocument
  ⟨formatted, formatted.length, formatPagination conn.pageInfo⟩

/-- `_list_documents`, given the transport outcome. -/
def list_documents_op (transport : Except String DocumentsData) :
    ServerResult (ListResult FormattedDocument) :=
  match transport with
  | .error e => .error e
  | .ok d => .ok (list_documents_result d)

/-! ## Remote shapes for the get-by-id operations -/

/-- A project reference nested under an initiative detail. -/
structure RemoteProjRef where
  id : String
  name : String
  description : Option String
  state : Option String
  progress : Option ℚ
  targetDate : Option String
deriving DecidableEq

/-- A document reference nested under an initiative or project detail. -/
structure RemoteDocRef where
  id : String
  title : String
  createdAt : Option String
  updatedAt : Option String
deriving DecidableEq

/-- The `initiative` entity of a `GetInitiative` response. -/
structure RemoteInitiativeDetail where
  id : String
  name : String
  description : Option String
  content : Option String
  status : Option String
  owner : Option RemoteOwner
  targetDate : Option String
  startedAt : Option String
  completedAt : Option String
  archivedAt : Option String
  createdAt : Option String
  updatedAt : Option String
  color : Option String
  icon : Option String
  projects : Option (Conn RemoteProjRef)
  documents : Option (Conn RemoteDocRef)
deriving DecidableEq

/-- The workflow-state reference of an issue (`state.name`, `state.type`). -/
structure RemoteIssueState where
  name : Option String
  type : Option String
deriving DecidableEq

/-- The `projectMilestone` reference the server code reads from an issue
(`issue.get("projectMilestone", \x7b\x7d).get("id")`). -/
structure RemoteMilestoneRef where
  id : Option String
deriving DecidableEq

/-- An issue node of a project-detail response, as the server code reads it:
`id`, `identifier` and `title` with `[...]`, the rest with `.get`. -/
structure RemoteIssue where
  id : String
  identifier : String
  title : String
  state : Option RemoteIssueState
  priority : Option ℚ
  projectMilestone : Option RemoteMilestoneRef
deriving DecidableEq

/-- An issue node nested under a milestone (`id` and `title` with `[...]`,
`identifier` with `.get`). -/
structure RemoteMilestoneIssue where
  id : String
  identifier : Option String
  title : String
deriving DecidableEq

/-- A milestone node of the `projectMilestones` collection as the server
code reads it. -/
structure RemoteMilestone where
  id : String
  name : String
  description : Option String
  targetDate : Option String
  status : Option String
  progress : Option ℚ
  sortOrder : Option ℚ
  createdAt : Option String
  updatedAt : Option String
  archivedAt : Option String
  issues : Option (Conn RemoteMilestoneIssue)
deriving DecidableEq

/-- The `project` entity of a `GetProject` response, with every key the
server code reads.  Note: the `GetProject` query document above requests
neither `issues.nodes.projectMilestone` nor `projectMilestones`, so in a
response conforming to the query those two fields are absent; the server
code nonetheless reads them defensively with `.get`. -/
structure RemoteProjectDetail where
  id : String
  name : String
  description : Option String
  content : Option String
  state : Option String
  progress : Option ℚ
  lead : Option RemoteOwner
  teams : Option (Conn RemoteTeam)
  issues : Option (Conn RemoteIssue)
  documents : Option (Conn RemoteDocRef)
  initiatives : Option (Conn RemoteInitRef)
  projectMilestones : Option (Conn RemoteMilestone)
  targetDate : Option String
  completedAt : Option String
  archivedAt : Option String
  createdAt : Option String
  updatedAt : Option String
  color : Option String
  icon : Option String
deriving DecidableEq

/-- The `document` entity of a `GetDocument` response. -/
structure RemoteDocumentDetail where
  id : String
  title : String
  content : Option String
  creator : Option RemoteOwner
  project : Option RemoteRef
  initiative : Option RemoteRef
  archivedAt : Option String
  createdAt : Option String
  updatedAt : Option String
  color : Option String
  icon : Option String
deriving DecidableEq

/-- The `data` mapping of a `GetInitiative` response (`initiative` is `none`
when the entity field is null or absent). -/
structure InitiativeData where
  initiative : Option RemoteInitiativeDetail
deriving DecidableEq

/-- The `data` mapping of a `GetProject` response. -/
structure ProjectData where
  project : Option RemoteProjectDetail
deriving DecidableEq

/-- The `data` mapping of a `GetDocument` response. -/
structure DocumentData where
  document : Option RemoteDocumentDetail
deriving DecidableEq

/-! ## Server layer: get-by-id reshaping -/

/-- The owner/lead/creator block of a detail response:
`\x7b"name": ..., "email": ...\x7d`. -/
structure OwnerOut where
  name : Option String
  email : Option String
deriving DecidableEq

/-- A project entry of an initiative detail. -/
structure ProjOut where
  id : String
  name : String
  description : Option String
  state : Option String
  progress : Option ℚ
  target_date : Option String
deriving DecidableEq

/-- A document entry of an initiative or project detail. -/
structure DocOut where
  id : String
  title : String
  created_at : Option String
  updated_at : Option String
deriving DecidableEq

/-- The `_get_initiative` success output. -/
structure InitiativeDetail where
  id : String
  name : String
  description : Option String
  content : Option String
  status : Option String
  owner : Option OwnerOut
  project_count : Nat
  target_date : Option String
  started_at : Option String
  completed_at : Option String
  archived_at : Option String
  created_at : Option String
  updated_at : Option String
  color : Option String
  icon : Option String
  projects : List ProjOut
  documents : List DocOut
deriving DecidableEq

/-- One project entry built by `_get_initiative`. -/
def formatProjRef (p : RemoteProjRef) : ProjOut :=
  ⟨p.id, p.name, p.description, p.state, p.progress, p.targetDate⟩

/-- One document entry built by `_get_initiative` / `_get_project`. -/
def formatDocRef (d : RemoteDocRef) : DocOut :=
  ⟨d.id, d.title, d.createdAt, d.updatedAt⟩

/-- The success-path reshaping of `_get_initiative` (`project_count` counts
the actual nested projects array). -/
def initiativeDetailOf (i : RemoteInitiativeDetail) : InitiativeDetail :=
  let projects := (connNodes i.projects).map formatProjRef
  let documents := (connNodes i.documents).map formatDocRef
  { id := i.id
    name := i.name
    description := i.description
    content := i.content
    status := i.status
    owner := match i.owner with | some o => some ⟨o.name, o.email⟩ | none => none
    project_count := projects.length
    target_date := i.targetDate
    started_at := i.startedAt
    completed_at := i.completedAt
    archived_at := i.archivedAt
    created_at := i.createdAt
    updated_at := i.updatedAt
    color := i.color
    icon := i.icon
    projects := projects
    documents := documents }

/-- `_get_initiative`: transport failures become `\x7b"error": str(e)\x7d`,
a null/absent entity becomes the semantic not-found error, and otherwise the
reshaped detail is returned. -/
def get_initiative_op (id : String) (transport : Except String InitiativeData) :
    ServerResult InitiativeDetail :=
  match transport with
  | .error e => .error e
  | .ok d =>
    match d.initiative with
    | none => .error ("Initiative with ID \x27" ++ id ++ "\x27 not found")
    | some i => .ok (initiativeDetailOf i)

/-- An entry of the `issues` array of a project detail. -/
structure IssueOut where
  id : String
  identifier : String
  title : String
  state : Option String
  state_type : Option String
  priority : Option ℚ
  milestone_id : Option String
deriving DecidableEq

/-- An entry of `issues_without_milestone`. -/
structure SlimIssueOut where
  id : String
  identifier : String
  title : String
deriving DecidableEq

/-- An issue entry nested under a milestone of the output. -/
structure MilestoneIssueOut where
  id : String
  identifier : Option String
  title : String
deriving DecidableEq

/-- A milestone entry of a project detail. -/
structure MilestoneOut where
  id : String
  name : String
  description : Option String
  target_date : Option String
  status : Option String
  progress : ℚ
  sort_order : Option ℚ
  created_at : Option String
  updated_at : Option String
  archived_at : Option String
  issues : List MilestoneIssueOut
  issue_count : Nat
deriving DecidableEq

/-- A team entry of a project detail. -/
structure TeamOut where
  id : String
  name : String
  key : String
deriving DecidableEq

/-- An initiative entry of a project detail. -/
structure InitRefOut where
  id : String
  name : String
deriving DecidableEq

/-- The `_get_project` success output. -/
structure ProjectDetail where
  id : String
  name : String
  description : Option String
  content : Option String
  state : Option String
  progress : Option ℚ
  lead : Option OwnerOut
  teams : List TeamOut
  initiatives : List InitRefOut
  issues : List IssueOut
  issues_without_milestone : List SlimIssueOut
  documents : List DocOut
  milestones : List MilestoneOut
  target_date : Option String
  completed_at : Option String
  archived_at : Option String
  created_at : Option String
  updated_at : Option String
  color : Option String
  icon : Option String
deriving DecidableEq

/-- The `milestone_id` the server code extracts from an issue:
`issue.get("projectMilestone", \x7b\x7d).get("id") if issue.get("projectMilestone") else None`. -/
def milestoneIdOf (i : RemoteIssue) : Option String :=
  match i.projectMilestone with
  | some ref => ref.id
  | none => none

/-- One entry of `all_issues` in `_get_project`. -/
def formatIssue (i : RemoteIssue) : IssueOut :=
  { id := i.id
    identifier := i.identifier
    title := i.title
    state := match i.state with | some s => s.name | none => none
    state_type := match i.state with | some s => s.type | none => none
    priority := i.priority
    milestone_id := milestoneIdOf i }

/-- One issue entry nested under an output milestone. -/
def formatMilestoneIssue (i : RemoteMilestoneIssue) : MilestoneIssueOut :=
  ⟨i.id, i.identifier, i.title⟩

/-- One milestone entry of the output: `progress` is
`milestone.get("progress", 0) / 100.0`. -/
def formatMilestone (m : RemoteMilestone) : MilestoneOut :=
  let milestone_issues := (connNodes m.issues).map formatMilestoneIssue
  { id := m.id
    name := m.name
    description := m.description
    target_date := m.targetDate
    status := m.status
    progress := m.progress.getD 0 / 100
    sort_order := m.sortOrder
    created_at := m.createdAt
    updated_at := m.updatedAt
    archived_at := m.archivedAt
    issues := milestone_issues
    issue_count := milestone_issues.length }

/-- The success-path reshaping of `_get_project`: build `all_issues`, the
milestone entries, and `issues_without_milestone` (every formatted issue
whose `milestone_id` is falsy, projected to id/identifier/title). -/
def projectDetailOf (p : RemoteProjectDetail) : ProjectDetail :=
  let all_issues := (connNodes p.issues).map formatIssue
  let milestones := (connNodes p.projectMilestones).map formatMilestone
  { id := p.id
    name := p.name
    description := p.description
    content := p.content
    state := p.state
    progress := p.progress
    lead := match p.lead with | some o => some ⟨o.name, o.email⟩ | none => none
    teams := (connNodes p.teams).map (fun t => (⟨t.id, t.name, t.key⟩ : TeamOut))
    initiatives := (connNodes p.initiatives).map (fun i => (⟨i.id, i.name⟩ : InitRefOut))
    issues := all_issues
    issues_without_milestone :=
      (all_issues.filter (fun i => !pyTruthy i.milestone_id)).map
        (fun i => (⟨i.id, i.identifier, i.title⟩ : SlimIssueOut))
    documents := (connNodes p.documents).map formatDocRef
    milestones := milestones
    target_date := p.targetDate
    completed_at := p.completedAt
    archived_at := p.archivedAt
    created_at := p.createdAt
    updated_at := p.updatedAt
    color := p.color
    icon := p.icon }

/-- `_get_project`: transport failures become `\x7b"error": str(e)\x7d`, a
null/absent entity becomes the semantic not-found error, otherwise the
reshaped detail is returned. -/
def get_project_op (id : String) (transport : Except String ProjectData) :
    ServerResult ProjectDetail :=
  match transport with
  | .error e => .error e
  | .ok d =>
    match d.project with
    | none => .error ("Project with ID \x27" ++ id ++ "\x27 not found")
    | some p => .ok (projectDetailOf p)

/-- The `_get_document` success output.  `project`/`initiative` are emitted
as nested `\x7bid, name\x7d` objects or `None`, never partially. -/
structure RefOut where
  id : Option String
  name : Option String
deriving DecidableEq

/-- The `_get_document` success output. -/
structure DocumentDetail where
  id : String
  title : String
  content : Option String
  creator : Option OwnerOut
  project : Option RefOut
  initiative : Option RefOut
  archived_at : Option String
  created_at : Option String
  updated_at : Option String
  color : Option String
  icon : Option String
deriving DecidableEq

/-- The success-path reshaping of `_get_document`. -/
def documentDetailOf (d : RemoteDocumentDetail) : DocumentDetail :=
  { id := d.id
    title := d.title
    content := d.content
    creator := match d.creator with | some o => some ⟨o.name, o.email⟩ | none => none
    project := match d.project with | some r => some ⟨r.id, r.name⟩ | none => none
    initiative := match d.initiative with | some r => some ⟨r.id, r.name⟩ | none => none
    archived_at := d.archivedAt
    created_at := d.createdAt
    updated_at := d.updatedAt
    color := d.color
    icon := d.icon }

/-- `_get_document`: transport failures become `\x7b"error": str(e)\x7d`, a
null/absent entity becomes the semantic not-found error, otherwise the
reshaped detail is returned. -/
def get_document_op (id : String) (transport : Except String DocumentData) :
    ServerResult DocumentDetail :=
  match transport with
  | .error e => .error e
  | .ok d =>
    match d.document with
    | none => .error ("Document with ID \x27" ++ id ++ "\x27 not found")
    | some doc => .ok (documentDetailOf doc)

/-- A project-detail response conforming to the `GetProject` query document:
since the query requests neither an issue-level `projectMilestone` field nor
a project-level `projectMilestones` collection, a response to it carries
neither. -/
def conformsToGetProjectQuery (p : RemoteProjectDetail) : Prop :=
  (∀ i ∈ connNodes p.issues, i.projectMilestone = none) ∧ connNodes p.projectMilestones = []

instance (p : RemoteProjectDetail) : Decidable (conformsToGetProjectQuery p) := by
  unfold conformsToGetProjectQuery
  exact instDecidableAnd

/-! ## Sample data for concrete witnesses -/

/-- A concrete issue with no milestone reference. -/
def sampleIssue1 : RemoteIssue :=
  { id := "ISS-1", identifier := "ABC-1", title := "First issue",
    state := none, priority := none, projectMilestone := none }

/-- A second concrete issue with state and priority but no milestone. -/
def sampleIssue2 : RemoteIssue :=
  { id := "ISS-2", identifier := "ABC-2", title := "Second issue",
    state := some ⟨some "Todo", some "unstarted"⟩, priority := some 2,
    projectMilestone := none }

/-- A concrete project-detail response conforming to the `GetProject` query:
two issues, no milestone data. -/
def sampleProject : RemoteProjectDetail :=
  { id := "PRJ-1", name := "Sample project", description := none, content := none,
    state := some "started", progress := some 30, lead := none, teams := none,
    issues := some ⟨[sampleIssue1, sampleIssue2]⟩, documents := none,
    initiatives := none, projectMilestones := none, targetDate := none,
    completedAt := none, archivedAt := none, createdAt := none, updatedAt := none,
    color := none, icon := none }

/-- A concrete milestone whose remote progress is 50. -/
def sampleMilestone : RemoteMilestone :=
  { id := "MS-1", name := "Alpha", description := none, targetDate := none,
    status := some "next", progress := some 50, sortOrder := none,
    createdAt := none, updatedAt := none, archivedAt := none,
    issues := some ⟨[⟨"ISS-3", some "ABC-3", "Third issue"⟩]⟩ }

/-- A concrete project-detail response carrying one milestone (exercises the
defensive milestone-formatting path of the server code). -/
def sampleMilestoneProject : RemoteProjectDetail :=
  { id := "PRJ-2", name := "Milestone project", description := none, content := none,
    state := none, progress := none, lead := none, teams := none,
    issues := none, documents := none, initiatives := none,
    projectMilestones := some ⟨[sampleMilestone]⟩, targetDate := none,
    completedAt := none, archivedAt := none, createdAt := none, updatedAt := none,
    color := none, icon := none }

/-! ## Claims -/

/-- Claim C1: for every project-detail response processed by
`get_project_with_milestones_and_associated_issues` — i.e. every response
conforming to the `GetProject` query document, which requests neither
issue-level `projectMilestone` references nor a `projectMilestones`
collection — the ids of `issues_without_milestone` followed by the ids of the
per-milestone issue lists are exactly the ids of the full `issues` list: each
issue appears exactly once, none is duplicated and none is omitted. -/
theorem project_issue_partition (p : RemoteProjectDetail)
    (h : conformsToGetProjectQuery p) :
    ((projectDetailOf p).issues_without_milestone.map SlimIssueOut.id) ++
      ((projectDetailOf p).milestones.map (fun m => m.issues.map MilestoneIssueOut.id)).flatten =
    (projectDetailOf p).issues.map IssueOut.id := by
  obtain ⟨h1, h2⟩ := h
  simp only [projectDetailOf, h2, List.map_nil, List.flatten_nil, List.append_nil]
  have hf : ((connNodes p.issues).map formatIssue).filter (fun i => !pyTruthy i.milestone_id)
      = (connNodes p.issues).map formatIssue := by
    apply List.filter_eq_self.mpr
    intro a ha
    obtain ⟨x, hx, rfl⟩ := List.mem_map.mp ha
    simp [formatIssue, milestoneIdOf, h1 x hx, pyTruthy]
  rw [hf]
  simp only [List.map_map]
  rfl

/-- Witness for C1: the partition law evaluated on a concrete conforming
two-issue response. -/
theorem project_issue_partition_witness :
    conformsToGetProjectQuery sampleProject ∧
    ((projectDetailOf sampleProject).issues_without_milestone.map SlimIssueOut.id) ++
      ((projectDetailOf sampleProject).milestones.map
        (fun m => m.issues.map MilestoneIssueOut.id)).flatten =
    (projectDetailOf sampleProject).issues.map IssueOut.id :=
  ⟨by decide, project_issue_partition sampleProject (by decide)⟩

/-- Claim C2, counterexample: the claim asserts that flipping
`include_archived` changes the outgoing filter object of `list_projects` and
`list_documents`; on the code it changes nothing — with every other argument
fixed, the full request payload (query text and variables) is identical for
`include_archived = true` and `false`. -/
theorem include_archived_changes_projects_counterexample :
    LinearClient.get_projects 50 (some "API") true none none none none =
      LinearClient.get_projects 50 (some "API") false none none none none ∧
    LinearClient.get_documents 50 (some "API") true none none none none =
      LinearClient.get_documents 50 (some "API") false none none none none :=
  ⟨rfl, rfl⟩

/-- Claim C2 (amended): `include_archived` is a documented no-op for
`list_initiatives` and in fact a no-op for all three list operations: for
otherwise-identical argument lists, flipping the flag leaves the query text
and the variables payload unchanged in every case. -/
theorem include_archived_is_noop (limit : Int) (fq ta ti pid iid a b : Option String)
    (x y : Bool) :
    LinearClient.get_initiatives limit fq x a b =
      LinearClient.get_initiatives limit fq y a b ∧
    LinearClient.get_projects limit fq x ta ti a b =
      LinearClient.get_projects limit fq y ta ti a b ∧
    LinearClient.get_documents limit fq x pid iid a b =
      LinearClient.get_documents limit fq y pid iid a b :=
  ⟨rfl, rfl, rfl⟩

/-- Claim C3, counterexample: the claim asserts that every list operation
with a non-null `search` sends a contains-filter on the primary text field;
`get_initiatives` with the non-null search `"API"` sends no filter at all
(the variables have no filter entry), and `get_projects` with the non-null
empty-string search also sends none. -/
theorem search_contains_filter_counterexample :
    (LinearClient.get_initiatives 50 (some "API") false none none).vars.filter = none ∧
    (LinearClient.get_projects 50 (some "") false none none none none).vars.filter = none :=
  ⟨rfl, by decide⟩

/-- Claim C3 (amended): for `list_projects` and `list_documents` called with
a non-null, non-empty `search`, the variables sent upstream include a
`contains` filter on `name` resp. `title`; `list_initiatives` never sends any
filter, whatever its `search` argument. -/
theorem search_contains_filter (s : String) (hs : s ≠ "") (limit : Int) (ia : Bool)
    (ta ti pid iid a b fq : Option String) :
    ("name", FilterVal.contains s) ∈
      ((LinearClient.get_projects limit (some s) ia ta ti a b).vars.filter.getD []) ∧
    ("title", FilterVal.contains s) ∈
      ((LinearClient.get_documents limit (some s) ia pid iid a b).vars.filter.getD []) ∧
    (LinearClient.get_initiatives limit fq ia a b).vars.filter = none := by
  have hts : pyTruthy (some s) = true := by simp [pyTruthy, hs]
  refine ⟨?_, ?_, rfl⟩
  · cases hta : pyTruthy ta <;> cases hti : pyTruthy ti <;>
      simp [LinearClient.get_projects, LinearClient.get_projects_filter, hts, hta, hti]
  · cases hpa : pyTruthy pid <;> cases hia : pyTruthy iid <;>
      simp [LinearClient.get_documents, LinearClient.get_documents_filter, hts, hpa, hia]

/-- Witness for C3 (amended): the contains filters built for the concrete
search term "API". -/
theorem search_contains_filter_witness :
    ("API" ≠ "") ∧
    ("name", FilterVal.contains "API") ∈
      ((LinearClient.get_projects 50 (some "API") false none none none none).vars.filter.getD []) ∧
    ("title", FilterVal.contains "API") ∈
      ((LinearClient.get_documents 50 (some "API") false none none none none).vars.filter.getD []) :=
  ⟨by decide,
    (search_contains_filter "API" (by decide) 50 false none none none none none none none).1,
    (search_contains_filter "API" (by decide) 50 false none none none none none none none).2.1⟩

/-- Claim C4, counterexample: the claim asserts the transport layer raises a
GraphQL error iff the `errors` array is present AND non-empty; on a body
whose `errors` key is present but empty, the code still raises (with the bare
header message) instead of returning the `data` field. -/
theorem graphql_empty_errors_counterexample :
    queryResult ⟨some [], some (JsonVal.obj [])⟩ = .error (gqlErrorMessage []) ∧
    gqlErrorMessage [] = "GraphQL errors:\n" ∧
    queryResult ⟨some [], some (JsonVal.obj [])⟩ ≠ .ok (JsonVal.obj []) := by
  refine ⟨rfl, by decide, fun h => Except.noConfusion h⟩

/-- Claim C4 (amended): the transport layer raises a GraphQL-classified error
if and only if the parsed 2xx body's top-level `errors` key is present (even
when the array is empty); the message is the `GraphQL errors:` header plus
one `- <message>` line per upstream error; otherwise it returns the
envelope's `data` field, or an empty mapping when `data` is absent. -/
theorem graphql_error_iff_errors_key (errs : List GqlErr) (d : Option JsonVal)
    (r : GraphQLResponse) :
    queryResult ⟨some errs, d⟩ = .error (gqlErrorMessage errs) ∧
    gqlErrorMessage errs =
      "GraphQL errors:\n" ++
        String.intercalate "\n" (errs.map (fun e => "- " ++ e.message.getD e.text)) ∧
    (gqlErrorLines errs).length = errs.length ∧
    queryResult ⟨none, d⟩ = .ok (d.getD (JsonVal.obj [])) ∧
    exceptOk (queryResult r) = r.errors.isNone := by
  refine ⟨rfl, rfl, List.length_map errs _, rfl, ?_⟩
  rcases r with ⟨errors, d2⟩
  cases errors <;> rfl

/-- Claim C5: every failure arising during a list/get operation (network,
HTTP, GraphQL, or any other internal exception — all surfaced by the
transport layer as a raised message) is converted by each of the six
operations into the data-shaped error result carrying that message; the
operations are total functions into a result type, so no exception crosses
the tool boundary. -/
theorem failures_become_error_results (msg id : String) :
    list_initiatives_op (.error msg) = .error msg ∧
    list_projects_op (.error msg) = .error msg ∧
    list_documents_op (.error msg) = .error msg ∧
    get_initiative_op id (.error msg) = .error msg ∧
    get_project_op id (.error msg) = .error msg ∧
    get_document_op id (.error msg) = .error msg :=
  ⟨rfl, rfl, rfl, rfl, rfl, rfl⟩

/-- Claim C6: when the remote response's entity field is null or absent, each
get-by-id operation returns exactly the semantic not-found error naming the
requested id — not a transport-failure shape. -/
theorem get_by_id_not_found (id : String) :
    get_initiative_op id (.ok ⟨none⟩) =
      .error ("Initiative with ID \x27" ++ id ++ "\x27 not found") ∧
    get_project_op id (.ok ⟨none⟩) =
      .error ("Project with ID \x27" ++ id ++ "\x27 not found") ∧
    get_document_op id (.ok ⟨none⟩) =
      .error ("Document with ID \x27" ++ id ++ "\x27 not found") :=
  ⟨rfl, rfl, rfl⟩

/-- Claim C7: every milestone entry emitted in a project detail carries
`progress = remote progress / 100` (the remote value defaulting to 0 when
absent), and whenever the remote progress lies in [0, 100] the emitted
progress lies in [0, 1]. -/
theorem milestone_progress_rescaled (p : RemoteProjectDetail) (m : RemoteMilestone)
    (hm : m ∈ connNodes p.projectMilestones) :
    formatMilestone m ∈ (projectDetailOf p).milestones ∧
    (formatMilestone m).progress = m.progress.getD 0 / 100 ∧
    (0 ≤ m.progress.getD 0 → m.progress.getD 0 ≤ 100 →
      0 ≤ (formatMilestone m).progress ∧ (formatMilestone m).progress ≤ 1) := by
  refine ⟨List.mem_map_of_mem _ hm, rfl, fun h0 h100 => ⟨?_, ?_⟩⟩
  · exact div_nonneg h0 (by norm_num)
  · show m.progress.getD 0 / 100 ≤ 1
    rw [div_le_one (by norm_num)]
    linarith

/-- Witness for C7: the concrete milestone with remote progress 50 is emitted
with progress 1/2, inside [0, 1]. -/
theorem milestone_progress_rescaled_witness :
    formatMilestone sampleMilestone ∈ (projectDetailOf sampleMilestoneProject).milestones ∧
    (formatMilestone sampleMilestone).progress = (50 : ℚ) / 100 ∧
    0 ≤ (formatMilestone sampleMilestone).progress ∧
    (formatMilestone sampleMilestone).progress ≤ 1 := by
  have h := milestone_progress_rescaled sampleMilestoneProject sampleMilestone (by decide)
  have hb := h.2.2 (by norm_num [sampleMilestone]) (by norm_num [sampleMilestone])
  exact ⟨h.1, by simpa [sampleMilestone] using h.2.1, hb.1, hb.2⟩

/-- Claim C8: for every list operation and every limit argument, the
page-size variable actually sent upstream is `min(limit, 250)`, hence at most
250 — values above 250 are capped, not rejected. -/
theorem limit_capped_at_250 (limit : Int) (search ta ti pid iid ca cb : Option String)
    (ia : Bool) :
    (list_initiatives_request limit search ia ca cb).vars.first ≤ 250 ∧
    (list_projects_request limit search ia ta ti ca cb).vars.first ≤ 250 ∧
    (list_documents_request limit search ia pid iid ca cb).vars.first ≤ 250 :=
  ⟨min_le_right limit 250, min_le_right limit 250, min_le_right limit 250⟩

/-- Claim C9: every successful list response carries a `total_count` equal to
the length of the returned item array of that page (the success path even
defines it that way, never from a remote total). -/
theorem total_count_is_page_length (di : InitiativesData) (dp : ProjectsData)
    (dd : DocumentsData) :
    list_initiatives_op (.ok di) = .ok (list_initiatives_result di) ∧
    (list_initiatives_result di).total_count = (list_initiatives_result di).items.length ∧
    list_projects_op (.ok dp) = .ok (list_projects_result dp) ∧
    (list_projects_result dp).total_count = (list_projects_result dp).items.length ∧
    list_documents_op (.ok dd) = .ok (list_documents_result dd) ∧
    (list_documents_result dd).total_count = (list_documents_result dd).items.length :=
  ⟨rfl, rfl, rfl, rfl, rfl, rfl⟩

/-- Claim C10: the limit clamp has no lower bound — every limit at most 250,
zero and negative values included, is forwarded unchanged as the page-size
variable by all three list operations. -/
theorem limit_not_lower_bounded (limit : Int) (h : limit ≤ 250)
    (search ta ti pid iid ca cb : Option String) (ia : Bool) :
    (list_initiatives_request limit search ia ca cb).vars.first = limit ∧
    (list_projects_request limit search ia ta ti ca cb).vars.first = limit ∧
    (list_documents_request limit search ia pid iid ca cb).vars.first = limit :=
  ⟨min_eq_left h, min_eq_left h, min_eq_left h⟩

/-- Witness for C10: the negative limit -5 is forwarded unchanged. -/
theorem limit_not_lower_bounded_witness :
    ((-5 : Int) ≤ 250) ∧
    (list_initiatives_request (-5) none false none none).vars.first = -5 ∧
    (list_projects_request (-5) none false none none none none).vars.first = -5 ∧
    (list_documents_request (-5) none false none none none none).vars.first = -5 :=
  ⟨by decide,
    (limit_not_lower_bounded (-5) (by decide) none none none none none none none false).1,
    (limit_not_lower_bounded (-5) (by decide) none none none none none none none false).2.1,
    (limit_not_lower_bounded (-5) (by decide) none none none none none none none false).2.2⟩

end LinearApi
